import Mathlib

/-!
Verification of the NeutrinoRDP transport core (`libfreerdp-core/transport.c`).

The transport sits above a byte stream and delivers one framed PDU at a time to
an upper-layer callback.  We embed the transport's state and operations
shallowly:

* bytes are `ℕ` (values of the C `uint8`, < 256 where it matters);
* C `int` values are `ℤ`;
* the non-blocking TCP endpoint is a queue of pending bytes (`List ℕ`);
* the receive stream `recv_buffer` is represented by the list of its valid
  bytes `data[0 .. p)` — FreeRDP's `stream_get_length`/`stream_get_pos` are
  both `p - data`, `stream_seek` advances `p`, and the caller
  `transport_read_nonblocking` always seeks by exactly the number of bytes
  written, so the valid prefix is the whole observable state of the stream;
* loops whose termination depends on the peer (`transport_read_layer`,
  `transport_write` in blocking mode) take fuel and return `Option`.
-/

/-- The transport layer tag `TRANSPORT_LAYER_*` (`transport.h`): the currently
active byte endpoint. -/
inductive Layer where
  | TCP
  | TLS
  | CLOSED
deriving DecidableEq, Repr

/-! ## Framing header codecs

`tpkt_verify_header`, `tpkt_read_header` (`tpkt.c`) and
`fastpath_header_length`, `fastpath_read_header` (`fastpath.c`) are repository
code outside the surveyed transport file; they are modelled from the spec's
framing tables. -/

/-- Modelled from the spec: `tpkt_verify_header` (`tpkt.c`, not in the surveyed
sources) — a buffer verifies as TPKT when its first byte is `0x03`
("first byte `0x03` → TPKT"). -/
def tpkt_verify_header (b : List ℕ) : Bool :=
  b.getD 0 0 = 0x03

/-- Modelled from the spec: `tpkt_read_header` (`tpkt.c`, not in the surveyed
sources) — "TPKT: `03 00 LL_hi LL_lo …` — total length `LL_hi·256 + LL_lo`",
the big-endian 16-bit length at bytes [2..4]. -/
def tpkt_read_header (b : List ℕ) : ℕ :=
  b.getD 2 0 * 256 + b.getD 3 0

/-- Modelled from the spec: `fastpath_header_length` (`fastpath.c`, not in the
surveyed sources) — "Fastpath header can be two or three bytes long": three
bytes when bit 7 of the length byte is set, else two. -/
def fastpath_header_length (b : List ℕ) : ℕ :=
  if b.getD 1 0 &&& 0x80 ≠ 0 then 3 else 2

/-- Modelled from the spec: `fastpath_read_header` (`fastpath.c`, not in the
surveyed sources) — Fast-Path short: total length = length byte (bit 7 clear);
long: `((byte1 & 0x7f) << 8) | byte2`. -/
def fastpath_read_header (b : List ℕ) : ℕ :=
  if b.getD 1 0 &&& 0x80 ≠ 0 then ((b.getD 1 0 &&& 0x7f) <<< 8) ||| b.getD 2 0
  else b.getD 1 0

/-! ## The framing recognizer of `transport_read` (transport.c lines 241-281) -/

/-- The header switch of `transport_read`: given the buffer contents (at least
the first four bytes valid), compute `pdu_bytes`, the PDU's declared total
length.  `pdu_bytes` starts at 0 and is left at 0 by the unrecognized-TSRequest
branch.  `b.getD i 0` is `s->data[i]`; `&&& 0x7f` is the C `& ~(0x80)` applied
to a `uint8` value. -/
def transport_read_pdu_len (b : List ℕ) : ℕ :=
  if b.getD 0 0 = 0x03 then
    (b.getD 2 0 <<< 8) ||| b.getD 3 0
  else if b.getD 0 0 = 0x30 then
    if b.getD 1 0 &&& 0x80 ≠ 0 then
      if b.getD 1 0 &&& 0x7f = 1 then b.getD 2 0 + 3
      else if b.getD 1 0 &&& 0x7f = 2 then ((b.getD 2 0 <<< 8) ||| b.getD 3 0) + 4
      else 0
    else b.getD 1 0 + 2
  else
    if b.getD 1 0 &&& 0x80 ≠ 0 then ((b.getD 1 0 &&& 0x7f) <<< 8) ||| b.getD 2 0
    else b.getD 1 0

/-! ## Non-blocking byte-level I/O -/

/-- Modelled from the spec: `tcp_read` (`tcp.c`, not in the surveyed sources)
on a non-blocking socket holding a queue of pending bytes — "read(buf, n) → int
— positive bytes, 0 on would-block": it delivers `min n pending` bytes.
Returns (bytes delivered, remaining queue). -/
def tcp_read_nb (socket : List ℕ) (n : ℕ) : List ℕ × List ℕ :=
  (socket.take n, socket.drop n)

/-- `transport_read_layer` (transport.c lines 174-211) specialized to
`blocking = false` and `layer = TCP` with the byte-queue endpoint: the `while
(read < bytes)` body runs at most once, returning the first endpoint status
(`if (transport->blocking == false) return status;`); when `bytes ≤ 0` the
loop is skipped and `read = 0` is returned.  Returns
(status, bytes delivered, remaining queue). -/
def transport_read_layer_nb (socket : List ℕ) (bytes : ℤ) : ℤ × List ℕ × List ℕ :=
  if 0 < bytes then
    let r := tcp_read_nb socket bytes.toNat
    ((r.1.length : ℤ), r.1, r.2)
  else ((0 : ℤ), [], socket)

/-- The second half of `transport_read` (transport.c lines 241-300): compute
`pdu_bytes` from the header, then read `pdu_bytes - stream_bytes` further
bytes.  `data` is the buffer contents, `transport_status` the bytes
accumulated by the header phase.  Returns (return value, buffer contents,
remaining socket queue). -/
def transport_read_body (data sock : List ℕ) (stream_bytes transport_status : ℤ) :
    ℤ × List ℕ × List ℕ :=
  let pdu_bytes : ℤ := (transport_read_pdu_len data : ℤ)
  let r := transport_read_layer_nb sock (pdu_bytes - stream_bytes)
  if r.1 < 0 then (r.1, data ++ r.2.1, r.2.2)
  else (transport_status + r.1, data ++ r.2.1, r.2.2)

/-- `transport_read` (transport.c lines 213-301) on the non-blocking TCP
endpoint.  `stream_bytes = stream_get_length(s)` is the count of valid bytes;
if fewer than 4, first read up to the 4-byte header
(`transport_read_layer(transport, s->data + stream_bytes, 4 - stream_bytes)`),
returning early on error or a still-incomplete header; then read exactly one
PDU.  Returns (cumulative bytes read this call, buffer contents, remaining
socket queue). -/
def transport_read_nb (sock buf : List ℕ) : ℤ × List ℕ × List ℕ :=
  let stream_bytes : ℤ := (buf.length : ℤ)
  if stream_bytes < 4 then
    let r := transport_read_layer_nb sock (4 - stream_bytes)
    if r.1 < 0 then (r.1, buf, r.2.2)
    else if r.1 + stream_bytes < 4 then (r.1, buf ++ r.2.1, r.2.2)
    else transport_read_body (buf ++ r.2.1) r.2.2 (stream_bytes + r.1) r.1
  else transport_read_body buf sock stream_bytes 0

/-- `transport_read_nonblocking` (transport.c lines 303-316):
`stream_check_size` only grows capacity (a no-op on the valid-prefix
representation) and `stream_seek(recv_buffer, status)` advances the position by
exactly the bytes `transport_read` wrote, which the valid-prefix representation
performs implicitly; on `status ≤ 0` no bytes were written, so the state is
returned unchanged either way. -/
def transport_read_nonblocking (sock buf : List ℕ) : ℤ × List ℕ × List ℕ :=
  transport_read_nb sock buf

/-! ## The non-blocking dispatch loop -/

/-- The state driving `transport_check_fds`: the pending socket bytes, the
valid contents of `recv_buffer`, and the re-entrancy counter
`transport->level`. -/
structure CheckState where
  socket : List ℕ
  buf : List ℕ
  level : ℕ
deriving DecidableEq, Repr

/-- The tail of `transport_check_fds` (transport.c lines 418-444) after a
header was recognized: `length == 0` is a protocol error (-1); `pos < length`
means the packet is incomplete (0); otherwise the buffer is sealed at `length`
(so the callback sees exactly `buf.take length`), the callback runs with
`level` incremented (restored afterwards), the buffer position is reset to 0,
and a callback failure surfaces as -1.  Returns
(status, new state, dispatched PDU if any). -/
def transport_check_dispatch (cb : List ℕ → Bool) (sock buf : List ℕ) (level : ℕ)
    (length pos : ℕ) : ℤ × CheckState × Option (List ℕ) :=
  if length = 0 then (-1, ⟨sock, buf, level⟩, none)
  else if pos < length then (0, ⟨sock, buf, level⟩, none)
  else
    let pdu := buf.take length
    if cb pdu then (0, ⟨sock, [], level⟩, some pdu)
    else (-1, ⟨sock, [], level⟩, some pdu)

/-- `transport_check_fds` (transport.c lines 370-447): refuse re-entrant calls
(`level != 0` → -1); read available bytes; on `pos > 0` classify the buffered
bytes via `tpkt_verify_header`, waiting (`return 0`) while `pos <= 4` (TPKT)
resp. `pos <= 2` or `pos < fastpath_header_length` (Fast-Path), then dispatch
at most one PDU.  Returns (status, new state, dispatched PDU if any). -/
def transport_check_fds (cb : List ℕ → Bool) (st : CheckState) :
    ℤ × CheckState × Option (List ℕ) :=
  if st.level ≠ 0 then (-1, st, none)
  else
    let r := transport_read_nonblocking st.socket st.buf
    if r.1 < 0 then (r.1, ⟨r.2.2, r.2.1, st.level⟩, none)
    else
      let buf1 := r.2.1
      let sock1 := r.2.2
      let pos := buf1.length
      if 0 < pos then
        if tpkt_verify_header buf1 then
          if pos ≤ 4 then (0, ⟨sock1, buf1, st.level⟩, none)
          else transport_check_dispatch cb sock1 buf1 st.level (tpkt_read_header buf1) pos
        else
          if pos ≤ 2 then (0, ⟨sock1, buf1, st.level⟩, none)
          else if pos < fastpath_header_length buf1 then (0, ⟨sock1, buf1, st.level⟩, none)
          else transport_check_dispatch cb sock1 buf1 st.level (fastpath_read_header buf1) pos
      else (0, ⟨sock1, buf1, st.level⟩, none)

/-- Drive `transport_check_fds` for `n` successive invocations (the caller's
event loop), collecting the dispatched PDUs in order. -/
def runCheck (cb : List ℕ → Bool) : ℕ → CheckState → CheckState × List (List ℕ)
  | 0, st => (st, [])
  | n + 1, st =>
    let r := transport_check_fds cb st
    let rest := runCheck cb n r.2.1
    (rest.1, (match r.2.2 with | some p => [p] | none => []) ++ rest.2)

/-- A wire frame that the non-blocking dispatch path handles faithfully: at
least 4 bytes, the recognizer of `transport_read` computes exactly its size,
and the `transport_check_fds`-side header codec agrees; TPKT frames need at
least 5 bytes (the dispatch loop waits while `pos <= 4`), Fast-Path frames are
not allowed to start with the TSRequest tag `0x30` (which
`transport_check_fds` would misparse as Fast-Path). -/
def wellFrame (p : List ℕ) : Prop :=
  4 ≤ p.length ∧ (∀ b ∈ p, b < 256) ∧
  transport_read_pdu_len p = p.length ∧
  (if p.getD 0 0 = 0x03 then 5 ≤ p.length ∧ tpkt_read_header p = p.length
   else p.getD 0 0 ≠ 0x30 ∧ fastpath_read_header p = p.length)

instance (p : List ℕ) : Decidable (wellFrame p) := by
  unfold wellFrame
  infer_instance

/-! ## TLS upgrade -/

/-- The transport fields touched by `transport_connect_tls`: the layer tag,
whether `transport->tls` is non-null, and the socket descriptors of the TCP
endpoint and (when present) the TLS endpoint. -/
structure ConnTransport where
  layer : Layer
  tlsPresent : Bool
  tcpSockfd : ℤ
  tlsSockfd : ℤ
deriving DecidableEq, Repr

/-- `transport_connect_tls` (transport.c lines 85-97): lazily create the TLS
endpoint, set `transport->layer = TRANSPORT_LAYER_TLS` and copy the socket
descriptor, then run the handshake (`tls_connect`, whose outcome is the
parameter `tls_connect_ok`); return false exactly when the handshake fails. -/
def transport_connect_tls (tls_connect_ok : Bool) (t : ConnTransport) :
    Bool × ConnTransport :=
  let t1 := { t with tlsPresent := true }
  let t2 := { t1 with layer := Layer.TLS, tlsSockfd := t1.tcpSockfd }
  if tls_connect_ok = false then (false, t2)
  else (true, t2)

/-! ## The blocking read primitive (general endpoint oracle) -/

/-- The endpoint read oracles: the status returned by the k-th `tls_read`
resp. `tcp_read` call, as a function of the requested byte count. -/
structure ReadEndpoints where
  tls_read : ℕ → ℤ → ℤ
  tcp_read : ℕ → ℤ → ℤ

/-- The `while (read < bytes)` loop of `transport_read_layer` (transport.c
lines 179-208): select the endpoint by `layer` (on any other layer `status`
keeps its previous value, initially -1); in non-blocking mode return the first
status; return a negative status unchanged; otherwise accumulate and continue
(the `status == 0` branch only polls/sleeps).  `idx` counts endpoint calls;
fuel exhaustion (a non-terminating loop) is `none`. -/
def transport_read_layer_go (layer : Layer) (blocking : Bool) (ep : ReadEndpoints)
    (bytes : ℤ) : ℕ → ℤ → ℤ → ℕ → Option (ℤ × ℕ)
  | 0, _, _, _ => none
  | fuel + 1, readAcc, status0, idx =>
    if readAcc < bytes then
      let status :=
        if layer = Layer.TLS then ep.tls_read idx (bytes - readAcc)
        else if layer = Layer.TCP then ep.tcp_read idx (bytes - readAcc)
        else status0
      let idx1 := if layer = Layer.TLS ∨ layer = Layer.TCP then idx + 1 else idx
      if blocking = false then some (status, idx1)
      else if status < 0 then some (status, idx1)
      else transport_read_layer_go layer blocking ep bytes fuel (readAcc + status) status idx1
    else some (readAcc, idx)

/-- `transport_read_layer` (transport.c lines 174-211): `read = 0`,
`status = -1`, then the read loop.  Returns (return value, number of endpoint
calls), or `none` when the loop exceeds the fuel. -/
def transport_read_layer (layer : Layer) (blocking : Bool) (ep : ReadEndpoints)
    (bytes : ℤ) (fuel : ℕ) : Option (ℤ × ℕ) :=
  transport_read_layer_go layer blocking ep bytes fuel 0 (-1) 0

/-! ## The write path -/

/-- The `while (length > 0)` loop of `transport_write` (transport.c lines
334-353): select the endpoint by `layer` (on any other layer `status` keeps
its previous value, initially -1), break on a negative status, otherwise
consume `status` bytes and continue (the `status == 0` branch only sleeps).
`ep` gives the status of the k-th endpoint write for the requested length;
`idx` counts endpoint calls. -/
def transport_write_loop (layer : Layer) (ep : ℕ → ℤ → ℤ) :
    ℕ → ℤ → ℤ → ℕ → Option (ℤ × ℕ)
  | 0, _, _, _ => none
  | fuel + 1, length, status0, idx =>
    if 0 < length then
      let status :=
        if layer = Layer.TLS then ep idx length
        else if layer = Layer.TCP then ep idx length
        else status0
      let idx1 := if layer = Layer.TLS ∨ layer = Layer.TCP then idx + 1 else idx
      if status < 0 then some (status, idx1)
      else transport_write_loop layer ep fuel (length - status) status idx1
    else some (status0, idx)

/-- `transport_write` (transport.c lines 318-362): `status = -1`, run the send
loop over `length = stream_get_length(s)`, and afterwards set
`transport->layer = TRANSPORT_LAYER_CLOSED` when `status < 0`.  Returns
(status, resulting layer, number of endpoint write calls). -/
def transport_write (layer : Layer) (ep : ℕ → ℤ → ℤ) (length : ℤ) (fuel : ℕ) :
    Option (ℤ × Layer × ℕ) :=
  match transport_write_loop layer ep fuel length (-1) 0 with
  | none => none
  | some (status, calls) =>
    (status, if status < 0 then Layer.CLOSED else layer, calls)

/-! ## Auxiliary arithmetic and list lemmas -/

/-- A byte below 256 or-ed into an 8-bit-shifted value is plain addition:
the C idiom `(hi << 8) | lo` equals `hi * 256 + lo`. -/
theorem shift8_lor (a b : ℕ) (hb : b < 256) : (a <<< 8) ||| b = a * 256 + b := by
  have hb' : b < 2 ^ 8 := by norm_num [hb]
  have h := Nat.mul_add_lt_is_or (i := 8) hb' a
  rw [Nat.shiftLeft_eq]
  calc a * 2 ^ 8 ||| b = 2 ^ 8 * a ||| b := by rw [Nat.mul_comm]
    _ = 2 ^ 8 * a + b := h.symm
    _ = a * 256 + b := by ring_nf

/-- The non-blocking read primitive delivers an exact prefix when asked for
exactly its length. -/
theorem read_layer_nb_exact (t rest : List ℕ) :
    transport_read_layer_nb (t ++ rest) (t.length : ℤ) = ((t.length : ℤ), t, rest) := by
  rcases t with _ | ⟨x, t⟩
  · simp [transport_read_layer_nb]
  · unfold transport_read_layer_nb
    rw [if_pos (by push_cast [List.length_cons]; omega)]
    simp [tcp_read_nb, Int.toNat_natCast, List.take_left, List.drop_left]

/-- The non-blocking read primitive on an empty socket reports zero bytes. -/
theorem read_layer_nb_nil (bytes : ℤ) :
    transport_read_layer_nb [] bytes = (0, [], []) := by
  unfold transport_read_layer_nb
  split <;> simp [tcp_read_nb]

/-- The non-blocking read primitive asked for a non-positive byte count skips
its loop entirely: no endpoint call, zero returned, socket untouched. -/
theorem read_layer_nb_nonpos (sock : List ℕ) (bytes : ℤ) (h : bytes ≤ 0) :
    transport_read_layer_nb sock bytes = (0, [], sock) := by
  unfold transport_read_layer_nb
  rw [if_neg (by omega)]

/-- `transport_read` on an empty socket makes no progress and leaves the
buffered bytes as they are. -/
theorem transport_read_nb_empty (buf : List ℕ) :
    transport_read_nb [] buf = (0, buf, []) := by
  simp only [transport_read_nb, transport_read_body, read_layer_nb_nil]
  split_ifs <;> simp_all

/-! ## C2 — TLS upgrade failure leaves the layer at TLS, not TCP -/

/-- C2 (counterexample): starting from a transport whose layer is TCP, a failed
TLS handshake makes `transport_connect_tls` return false with `layer = TLS` —
the layer is not left unchanged at TCP. -/
theorem c2_counterexample :
    transport_connect_tls false ⟨Layer.TCP, false, 7, 0⟩ =
      (false, ⟨Layer.TLS, true, 7, 7⟩) ∧ Layer.TLS ≠ Layer.TCP :=
  ⟨rfl, by decide⟩

/-- C2 (amended): if the TLS handshake fails, `transport_connect_tls` returns
failure, and the transport's layer field holds TLS — the assignment
`transport->layer = TRANSPORT_LAYER_TLS` happens before the handshake, so the
pre-call value is overwritten even on failure. -/
theorem c2_amended (t : ConnTransport) :
    (transport_connect_tls false t).1 = false ∧
      (transport_connect_tls false t).2.layer = Layer.TLS ∧
      (transport_connect_tls false t).2.tlsPresent = true := by
  simp [transport_connect_tls]

/-- C2 (witness): the amended statement at a concrete TCP transport. -/
theorem c2_witness :
    (transport_connect_tls false ⟨Layer.TCP, false, 7, 0⟩).1 = false ∧
      (transport_connect_tls false ⟨Layer.TCP, false, 7, 0⟩).2.layer = Layer.TLS ∧
      (transport_connect_tls false ⟨Layer.TCP, false, 7, 0⟩).2.tlsPresent = true :=
  c2_amended ⟨Layer.TCP, false, 7, 0⟩

/-! ## C4 — a failed write closes the layer and later writes fail fast -/

/-- C4: after any `transport_write` that returns a negative status the layer is
CLOSED, and any `transport_write` on a CLOSED transport returns -1 with zero
endpoint write calls (neither `tcp_write` nor `tls_write` is reached). -/
theorem c4_write_error_closes :
    (∀ (layer : Layer) (ep : ℕ → ℤ → ℤ) (len : ℤ) (fuel : ℕ) (st : ℤ) (l : Layer) (c : ℕ),
      transport_write layer ep len fuel = some (st, l, c) → st < 0 → l = Layer.CLOSED) ∧
    (∀ (ep : ℕ → ℤ → ℤ) (len : ℤ) (fuel : ℕ), 1 ≤ fuel →
      transport_write Layer.CLOSED ep len fuel = some (-1, Layer.CLOSED, 0)) := by
  constructor
  · intro layer ep len fuel st l c hsome hneg
    unfold transport_write at hsome
    rcases hloop : transport_write_loop layer ep fuel len (-1) 0 with _ | ⟨status, calls⟩ <;>
      rw [hloop] at hsome
    · cases hsome
    · simp only [Option.some.injEq, Prod.mk.injEq] at hsome
      obtain ⟨h1, h2, -⟩ := hsome
      rw [← h2, if_pos (h1 ▸ hneg)]
  · intro ep len fuel hf
    rcases fuel with _ | fuel
    · omega
    · have hl : transport_write_loop Layer.CLOSED ep (fuel + 1) len (-1) 0 = some (-1, 0) := by
        unfold transport_write_loop
        by_cases h : 0 < len
        · rw [if_pos h]
          simp
        · rw [if_neg h]
      unfold transport_write
      rw [hl]
      norm_num

/-- C4 (witness): a write on a CLOSED transport returns -1 without any endpoint
call. -/
theorem c4_witness :
    transport_write Layer.CLOSED (fun _ _ => (-1 : ℤ)) 4 1 = some (-1, Layer.CLOSED, 0) :=
  c4_write_error_closes.2 _ _ _ (le_refl 1)

/-! ## C9 — a zero-length write on a healthy transport fails and closes it -/

/-- C9: for a transport whose layer is TCP or TLS, `transport_write` with a
zero-length buffer performs no endpoint write (`while (length > 0)` is skipped,
leaving the initial `status = -1`), returns -1, and sets the layer to
CLOSED. -/
theorem c9_empty_write_closes (layer : Layer) (ep : ℕ → ℤ → ℤ) (fuel : ℕ)
    (hl : layer = Layer.TCP ∨ layer = Layer.TLS) (hf : 1 ≤ fuel) :
    transport_write layer ep 0 fuel = some (-1, Layer.CLOSED, 0) := by
  rcases fuel with _ | fuel
  · omega
  · unfold transport_write transport_write_loop
    simp

/-- C9 (witness): a zero-length write on a TCP transport. -/
theorem c9_witness :
    transport_write Layer.TCP (fun _ _ => (0 : ℤ)) 0 1 = some (-1, Layer.CLOSED, 0) :=
  c9_empty_write_closes Layer.TCP _ 1 (Or.inl rfl) (le_refl 1)

/-! ## C7 — transport_check_fds refuses re-entrant invocation -/

/-- C7: invoked with a nonzero re-entrancy counter, `transport_check_fds`
returns -1 immediately with the state untouched and no callback dispatched
(for every callback, so the callback cannot have been consulted). -/
theorem c7_no_reentry (cb : List ℕ → Bool) (st : CheckState) (h : st.level ≠ 0) :
    transport_check_fds cb st = (-1, st, none) := by
  unfold transport_check_fds
  rw [if_pos h]

/-- C7 (witness): a re-entrant call at level 1 with bytes pending on the socket
and in the buffer. -/
theorem c7_witness :
    transport_check_fds (fun _ => true) ⟨[1, 2], [3], 1⟩ = (-1, ⟨[1, 2], [3], 1⟩, none) :=
  c7_no_reentry (fun _ => true) ⟨[1, 2], [3], 1⟩ (by decide)

/-! ## C5 — the TSRequest length computation of transport_read -/

/-- C5: for a buffer beginning `0x30`, the recognizer computes: second byte
`LL` with bit 7 clear → `LL + 2`; second byte `0x81` → third byte + 3; second
byte `0x82` → third·256 + fourth + 4; a length encoding announcing more than
two length octets → the length is left at 0 (after the logged error). -/
theorem c5_tsrequest_len (b : List ℕ) (h0 : b.getD 0 0 = 0x30) :
    (b.getD 1 0 &&& 0x80 = 0 → transport_read_pdu_len b = b.getD 1 0 + 2) ∧
    (b.getD 1 0 = 0x81 → transport_read_pdu_len b = b.getD 2 0 + 3) ∧
    (b.getD 1 0 = 0x82 → b.getD 3 0 < 256 →
      transport_read_pdu_len b = b.getD 2 0 * 256 + b.getD 3 0 + 4) ∧
    (b.getD 1 0 &&& 0x80 ≠ 0 → 2 < b.getD 1 0 &&& 0x7f → transport_read_pdu_len b = 0) := by
  have h03 : ¬b.getD 0 0 = 0x03 := by omega
  refine ⟨fun h1 => ?_, fun h1 => ?_, fun h1 h3 => ?_, fun h1 h2 => ?_⟩
  · unfold transport_read_pdu_len
    rw [if_neg h03, if_pos h0, if_neg (not_not_intro h1)]
  · unfold transport_read_pdu_len
    rw [if_neg h03, if_pos h0, if_pos (by rw [h1]; decide), if_pos (by rw [h1]; decide)]
  · unfold transport_read_pdu_len
    rw [if_neg h03, if_pos h0, if_pos (by rw [h1]; decide), if_neg (by rw [h1]; decide),
      if_pos (by rw [h1]; decide), shift8_lor (b.getD 2 0) (b.getD 3 0) h3]
  · have hne1 : ¬b.getD 1 0 &&& 0x7f = 1 := by omega
    have hne2 : ¬b.getD 1 0 &&& 0x7f = 2 := by omega
    unfold transport_read_pdu_len
    rw [if_neg h03, if_pos h0, if_pos h1, if_neg hne1, if_neg hne2]

/-- C5 (witness): `30 82 01 00` yields 1·256 + 0 + 4 = 260, and `30 83 01 02`
(three announced length octets) yields 0. -/
theorem c5_witness :
    transport_read_pdu_len [0x30, 0x82, 1, 0] = 260 ∧
      transport_read_pdu_len [0x30, 0x83, 1, 2] = 0 := by
  constructor
  · have h := (c5_tsrequest_len [0x30, 0x82, 1, 0] (by decide)).2.2.1 (by decide) (by decide)
    simpa using h
  · have h := (c5_tsrequest_len [0x30, 0x83, 1, 2] (by decide)).2.2.2 (by decide) (by decide)
    simpa using h

/-! ## C6 — TPKT and Fast-Path length computation of transport_read -/

/-- C6 (counterexample): a buffer beginning `80 02 00` does not yield length
512: bit 7 of byte[1] = 0x02 is clear, so the short Fast-Path form applies and
the computed length is 2. -/
theorem c6_counterexample :
    transport_read_pdu_len [0x80, 0x02, 0x00] = 2 ∧
      transport_read_pdu_len [0x80, 0x02, 0x00] ≠ 512 := by
  constructor <;> decide

/-- C6 (amended): first byte `0x03` → length = byte[2]·256 + byte[3] (so
`03 00 00 04` gives 4); first byte neither `0x03` nor `0x30` → Fast-Path:
bit 7 of byte[1] clear → length = byte[1] (so `00 08` gives 8), bit 7 set →
length = `((byte[1] & 0x7f) << 8) | byte[2]`; the long-form example giving 512
is `00 82 00` (second byte 0x82, third 0x00), while `80 02 00` falls in the
short form and gives 2. -/
theorem c6_framing_len (b : List ℕ) :
    (b.getD 0 0 = 0x03 → b.getD 3 0 < 256 →
      transport_read_pdu_len b = b.getD 2 0 * 256 + b.getD 3 0) ∧
    (b.getD 0 0 ≠ 0x03 → b.getD 0 0 ≠ 0x30 → b.getD 1 0 &&& 0x80 = 0 →
      transport_read_pdu_len b = b.getD 1 0) ∧
    (b.getD 0 0 ≠ 0x03 → b.getD 0 0 ≠ 0x30 → b.getD 1 0 &&& 0x80 ≠ 0 →
      transport_read_pdu_len b = ((b.getD 1 0 &&& 0x7f) <<< 8) ||| b.getD 2 0) ∧
    transport_read_pdu_len [0x03, 0x00, 0x00, 0x04] = 4 ∧
    transport_read_pdu_len [0x00, 0x08] = 8 ∧
    transport_read_pdu_len [0x00, 0x82, 0x00] = 512 := by
  refine ⟨fun h0 h3 => ?_, fun h0 h0' h1 => ?_, fun h0 h0' h1 => ?_, by decide, by decide,
    by decide⟩
  · unfold transport_read_pdu_len
    rw [if_pos h0, shift8_lor (b.getD 2 0) (b.getD 3 0) h3]
  · unfold transport_read_pdu_len
    rw [if_neg h0, if_neg h0', if_neg (not_not_intro h1)]
  · unfold transport_read_pdu_len
    rw [if_neg h0, if_neg h0', if_pos h1]

/-- C6 (witness): the TPKT branch at `03 00 00 04` computes 0·256 + 4 = 4. -/
theorem c6_witness : transport_read_pdu_len [0x03, 0x00, 0x00, 0x04] = 0 * 256 + 4 := by
  have h := (c6_framing_len [0x03, 0x00, 0x00, 0x04]).1 (by decide) (by decide)
  simpa using h

/-! ## C8 — transport_read_layer: first status when non-blocking, all-or-error
when blocking -/

/-- The blocking read loop, when it terminates, ends with either a negative
status produced by some endpoint call or with exactly the requested byte
count, provided each endpoint call returns at most the requested count. -/
theorem read_layer_go_blocking (layer : Layer) (ep : ReadEndpoints)
    (hl : layer = Layer.TCP ∨ layer = Layer.TLS)
    (htcp : ∀ i m, ep.tcp_read i m ≤ m) (htls : ∀ i m, ep.tls_read i m ≤ m)
    (n : ℤ) :
    ∀ (fuel : ℕ) (readAcc status0 : ℤ) (idx : ℕ) (r : ℤ) (c : ℕ), readAcc ≤ n →
      transport_read_layer_go layer true ep n fuel readAcc status0 idx = some (r, c) →
      (r < 0 ∧ ∃ i m, r = (if layer = Layer.TLS then ep.tls_read i m else ep.tcp_read i m)) ∨
        r = n := by
  intro fuel
  induction fuel with
  | zero =>
    intro readAcc status0 idx r c _ h
    simp [transport_read_layer_go] at h
  | succ fuel ih =>
    intro readAcc status0 idx r c hle h
    unfold transport_read_layer_go at h
    by_cases hlt : readAcc < n
    · rw [if_pos hlt] at h
      simp only [Bool.true_eq_false, if_false] at h
      rcases hl with hTcp | hTls
      · subst hTcp
        simp only [reduceCtorEq, if_false, if_true] at h
        by_cases hneg : ep.tcp_read idx (n - readAcc) < 0
        · rw [if_pos hneg] at h
          obtain ⟨h1, -⟩ := Prod.mk.injEq .. ▸ Option.some.injEq .. ▸ h
          exact Or.inl ⟨h1 ▸ hneg, idx, n - readAcc, by simp [h1.symm]⟩
        · rw [if_neg hneg] at h
          have hstep : ep.tcp_read idx (n - readAcc) ≤ n - readAcc := htcp idx (n - readAcc)
          exact ih (readAcc + ep.tcp_read idx (n - readAcc)) _ _ r c (by omega) h
      · subst hTls
        simp only [if_true] at h
        by_cases hneg : ep.tls_read idx (n - readAcc) < 0
        · rw [if_pos hneg] at h
          obtain ⟨h1, -⟩ := Prod.mk.injEq .. ▸ Option.some.injEq .. ▸ h
          exact Or.inl ⟨h1 ▸ hneg, idx, n - readAcc, by simp [h1.symm]⟩
        · rw [if_neg hneg] at h
          have hstep : ep.tls_read idx (n - readAcc) ≤ n - readAcc := htls idx (n - readAcc)
          exact ih (readAcc + ep.tls_read idx (n - readAcc)) _ _ r c (by omega) h
    · rw [if_neg hlt] at h
      obtain ⟨h1, -⟩ := Prod.mk.injEq .. ▸ Option.some.injEq .. ▸ h
      exact Or.inr (by omega)

/-- C8: asked for `n > 0` bytes with `blocking = false`, `transport_read_layer`
returns the first endpoint read status immediately (one endpoint call, its
status returned verbatim, whether the layer is TCP or TLS); with
`blocking = true` it returns either a negative endpoint status unchanged or
exactly `n` — never a short non-negative count — whenever the endpoint honours
the contract of returning at most the requested count. -/
theorem c8_read_layer :
    (∀ (ep : ReadEndpoints) (n : ℤ) (fuel : ℕ), 0 < n → 1 ≤ fuel →
      transport_read_layer Layer.TCP false ep n fuel = some (ep.tcp_read 0 n, 1)) ∧
    (∀ (ep : ReadEndpoints) (n : ℤ) (fuel : ℕ), 0 < n → 1 ≤ fuel →
      transport_read_layer Layer.TLS false ep n fuel = some (ep.tls_read 0 n, 1)) ∧
    (∀ (layer : Layer) (ep : ReadEndpoints) (n : ℤ) (fuel : ℕ) (r : ℤ) (c : ℕ),
      (layer = Layer.TCP ∨ layer = Layer.TLS) →
      (∀ i m, ep.tcp_read i m ≤ m) → (∀ i m, ep.tls_read i m ≤ m) → 0 ≤ n →
      transport_read_layer layer true ep n fuel = some (r, c) → r < 0 ∨ r = n) := by
  refine ⟨fun ep n fuel hn hf => ?_, fun ep n fuel hn hf => ?_,
    fun layer ep n fuel r c hl htcp htls hn h => ?_⟩
  · rcases fuel with _ | fuel
    · omega
    · unfold transport_read_layer transport_read_layer_go
      rw [if_pos (by omega)]
      simp
  · rcases fuel with _ | fuel
    · omega
    · unfold transport_read_layer transport_read_layer_go
      rw [if_pos (by omega)]
      simp
  · rcases read_layer_go_blocking layer ep hl htcp htls n fuel 0 (-1) 0 r c hn h with
      ⟨hneg, -⟩ | heq
    · exact Or.inl hneg
    · exact Or.inr heq

/-- C8 (witness): with an endpoint that always delivers the full request, the
non-blocking call returns the first status 5 after one call, and a terminating
blocking run returns either a negative status or exactly 5. -/
theorem c8_witness :
    transport_read_layer Layer.TCP false ⟨fun _ m => m, fun _ m => m⟩ 5 3 = some (5, 1) ∧
      ((5 : ℤ) < 0 ∨ (5 : ℤ) = 5) := by
  constructor
  · have h := c8_read_layer.1 ⟨fun _ m => m, fun _ m => m⟩ 5 3 (by norm_num) (by norm_num)
    simpa using h
  · exact c8_read_layer.2.2 Layer.TCP ⟨fun _ m => m, fun _ m => m⟩ 5 3 5 1 (Or.inl rfl)
      (fun _ m => le_refl m) (fun _ m => le_refl m) (by norm_num) (by rfl)

/-! ## C10 — an undersized declared length is not reported as an error -/

/-- C10: whenever the declared PDU length computed by `transport_read` is
smaller than the bytes already buffered, the body call to
`transport_read_layer` receives a non-positive count, its loop does not run
(the socket is untouched), and `transport_read` returns the non-negative count
of header bytes read in this call: 0 when at least 4 bytes were already
buffered, `4 - buffered` when the header was completed in this call. -/
theorem c10_short_pdu_no_error (sock buf : List ℕ) :
    (4 ≤ buf.length → transport_read_pdu_len buf < buf.length →
      transport_read_nb sock buf = (0, buf, sock)) ∧
    (buf.length < 4 → 4 - buf.length ≤ sock.length →
      transport_read_pdu_len (buf ++ sock.take (4 - buf.length)) < 4 →
      transport_read_nb sock buf =
        (((4 - buf.length : ℕ) : ℤ), buf ++ sock.take (4 - buf.length),
          sock.drop (4 - buf.length))) := by
  constructor
  · intro h4 hlt
    have hr : transport_read_layer_nb sock
        ((transport_read_pdu_len buf : ℤ) - (buf.length : ℤ)) = (0, [], sock) :=
      read_layer_nb_nonpos _ _ (by push_cast; omega)
    simp only [transport_read_nb, transport_read_body]
    rw [if_neg (by push_cast; omega), hr]
    simp
  · intro h4 hsock hlt
    have hr : transport_read_layer_nb sock (4 - (buf.length : ℤ)) =
        (((4 - buf.length : ℕ) : ℤ), sock.take (4 - buf.length), sock.drop (4 - buf.length)) := by
      unfold transport_read_layer_nb
      rw [if_pos (by push_cast; omega)]
      have htn : ((4 : ℤ) - (buf.length : ℤ)).toNat = 4 - buf.length := by omega
      have hlen : (sock.take (4 - buf.length)).length = 4 - buf.length := by
        rw [List.length_take]
        omega
      simp only [tcp_read_nb, htn, hlen]
    have hr2 : transport_read_layer_nb (sock.drop (4 - buf.length))
        ((transport_read_pdu_len (buf ++ sock.take (4 - buf.length)) : ℤ) -
          ((buf.length : ℤ) + ((4 - buf.length : ℕ) : ℤ))) =
        (0, [], sock.drop (4 - buf.length)) :=
      read_layer_nb_nonpos _ _ (by push_cast; omega)
    simp only [transport_read_nb, transport_read_body]
    rw [if_pos (by push_cast; omega), hr]
    rw [if_neg (by push_cast; omega)]
    rw [if_neg (by push_cast; omega)]
    rw [hr2]
    simp

/-! ## The dispatch step: one complete well-formed frame at the front of the
socket is read and dispatched whole -/

/-- `transport_read` pulls exactly one frame whose recognized length equals its
size: 4 header bytes first, then the remainder, leaving the rest of the socket
untouched. -/
theorem transport_read_nb_frame (a b c d : ℕ) (t rest : List ℕ)
    (hlen : transport_read_pdu_len (a :: b :: c :: d :: t) = t.length + 4) :
    transport_read_nb (a :: b :: c :: d :: (t ++ rest)) [] =
      (((t.length + 4 : ℕ) : ℤ), a :: b :: c :: d :: t, rest) := by
  have hr : transport_read_layer_nb (a :: b :: c :: d :: (t ++ rest)) 4 =
      (4, [a, b, c, d], t ++ rest) := by
    have h := read_layer_nb_exact [a, b, c, d] (t ++ rest)
    simpa using h
  have hp : transport_read_pdu_len [a, b, c, d] = t.length + 4 := hlen
  have hr2 : transport_read_layer_nb (t ++ rest) ((t.length : ℤ)) =
      ((t.length : ℤ), t, rest) := read_layer_nb_exact t rest
  have harg : ((t.length + 4 : ℕ) : ℤ) - (4 : ℤ) = (t.length : ℤ) := by
    push_cast
    ring
  simp only [transport_read_nb, List.length_nil, Nat.cast_zero, List.nil_append]
  norm_num
  rw [hr]
  norm_num
  simp only [transport_read_body, List.nil_append, hp]
  rw [harg, hr2, if_neg (by omega)]
  simp
  omega

/-- One `transport_check_fds` call on a quiescent transport whose socket holds
a complete well-formed frame followed by arbitrary further bytes reads the
frame, dispatches it whole to the callback, and leaves the further bytes on
the socket with the receive buffer reset. -/
theorem check_fds_frame_step (cb : List ℕ → Bool) (hcb : ∀ x, cb x = true)
    (p rest : List ℕ) (hw : wellFrame p) :
    transport_check_fds cb ⟨p ++ rest, [], 0⟩ = (0, ⟨rest, [], 0⟩, some p) := by
  obtain ⟨h4, hbytes, hlen, hd⟩ := hw
  rcases p with _ | ⟨a, p⟩
  · simp at h4
  rcases p with _ | ⟨b, p⟩
  · simp at h4
  rcases p with _ | ⟨c, p⟩
  · simp at h4
  rcases p with _ | ⟨d, t⟩
  · simp at h4
  have hL : (a :: b :: c :: d :: t).length = t.length + 4 := by simp
  have hread := transport_read_nb_frame a b c d t rest (by rw [hlen, hL])
  simp only [transport_check_fds, transport_read_nonblocking, List.cons_append, hread]
  rw [if_neg (show ¬((0 : ℕ) ≠ 0) from by omega)]
  rw [if_neg (show ¬(((t.length + 4 : ℕ) : ℤ) < 0) from by push_cast; omega)]
  rw [if_pos (show 0 < (a :: b :: c :: d :: t).length from by rw [hL]; omega)]
  by_cases ha : a = 0x03
  · subst ha
    rw [if_pos (show tpkt_verify_header (0x03 :: b :: c :: d :: t) = true from by
      simp [tpkt_verify_header])]
    rw [if_pos (show (0x03 :: b :: c :: d :: t).getD 0 0 = 0x03 from rfl)] at hd
    obtain ⟨h5, htp⟩ := hd
    rw [hL] at h5 htp
    rw [if_neg (show ¬((0x03 :: b :: c :: d :: t).length ≤ 4) from by rw [hL]; omega)]
    unfold transport_check_dispatch
    rw [htp, if_neg (show ¬(t.length + 4 = 0) from by omega),
      if_neg (show ¬((0x03 :: b :: c :: d :: t).length < t.length + 4) from by rw [hL]; omega),
      show (0x03 :: b :: c :: d :: t).take (t.length + 4) = 0x03 :: b :: c :: d :: t from by
        rw [← hL]
        exact List.take_length _,
      if_pos (hcb (0x03 :: b :: c :: d :: t))]
  · rw [if_neg (show ¬(tpkt_verify_header (a :: b :: c :: d :: t) = true) from by
      simp [tpkt_verify_header, ha])]
    rw [if_neg (show ¬((a :: b :: c :: d :: t).getD 0 0 = 0x03) from ha)] at hd
    obtain ⟨h30, hfp⟩ := hd
    rw [hL] at hfp
    rw [if_neg (show ¬((a :: b :: c :: d :: t).length ≤ 2) from by rw [hL]; omega)]
    have hf : fastpath_header_length (a :: b :: c :: d :: t) ≤ 3 := by
      unfold fastpath_header_length
      split <;> omega
    rw [if_neg (show ¬((a :: b :: c :: d :: t).length <
        fastpath_header_length (a :: b :: c :: d :: t)) from by rw [hL]; omega)]
    unfold transport_check_dispatch
    rw [hfp, if_neg (show ¬(t.length + 4 = 0) from by omega),
      if_neg (show ¬((a :: b :: c :: d :: t).length < t.length + 4) from by rw [hL]; omega),
      show (a :: b :: c :: d :: t).take (t.length + 4) = a :: b :: c :: d :: t from by
        rw [← hL]
        exact List.take_length _,
      if_pos (hcb (a :: b :: c :: d :: t))]

/-! ## C1 — N complete PDUs yield N callbacks -/

/-- C1 (counterexample): the two complete Fast-Path PDUs `10 02` and `20 02`
(each of declared length 2, equal to its size) delivered in a single readiness
event produce only ONE callback over five successive `transport_check_fds`
invocations: the dispatcher reads 4 header bytes, dispatches the first 2-byte
PDU, and then resets the receive buffer, discarding the second PDU's bytes. -/
theorem c1_counterexample :
    runCheck (fun _ => true) 5 ⟨[0x10, 0x02, 0x20, 0x02], [], 0⟩ =
      (⟨[], [], 0⟩, [[0x10, 0x02]]) := by
  rfl

/-- C1 (amended): for every arrival whose bytes are the concatenation of N
complete well-formed frames (recognized length = size, at least 5 bytes for
TPKT, at least 4 and not TSRequest-tagged for Fast-Path), delivered in a
single readiness event, N successive `transport_check_fds` invocations
dispatch exactly the N frames, in arrival order, each callback receiving a
buffer of exactly the frame's declared length, with no further bytes needed
after the first invocation. -/
theorem c1_n_pdus_n_callbacks (cb : List ℕ → Bool) (hcb : ∀ x, cb x = true)
    (pdus : List (List ℕ)) (hw : ∀ p ∈ pdus, wellFrame p) :
    runCheck cb pdus.length ⟨pdus.flatten, [], 0⟩ = (⟨[], [], 0⟩, pdus) := by
  induction pdus with
  | nil => rfl
  | cons p ps ih =>
    have hstep := check_fds_frame_step cb hcb p ps.flatten (hw p (by simp))
    have hrest := ih (fun q hq => hw q (by simp [hq]))
    simp only [List.length_cons, List.flatten_cons]
    simp only [runCheck]
    rw [show p ++ ps.flatten = p ++ ps.flatten from rfl, hstep]
    simp only [hrest]
    simp

/-- C1 (witness): the spec's literal scenario — the two back-to-back Fast-Path
frames `04 04 11 22 04 04 33 44` in one readiness event yield two callbacks,
the first carrying `04 04 11 22` and the second carrying `04 04 33 44`, the
second on the next invocation with no additional bytes supplied. -/
theorem c1_witness :
    runCheck (fun _ => true) 2 ⟨[0x04, 0x04, 0x11, 0x22, 0x04, 0x04, 0x33, 0x44], [], 0⟩ =
      (⟨[], [], 0⟩, [[0x04, 0x04, 0x11, 0x22], [0x04, 0x04, 0x33, 0x44]]) := by
  have h := c1_n_pdus_n_callbacks (fun _ => true) (fun _ => rfl)
    [[0x04, 0x04, 0x11, 0x22], [0x04, 0x04, 0x33, 0x44]] (by decide)
  simpa using h

/-! ## C3 — the wait and dispatch conditions of transport_check_fds -/

/-- With no bytes pending on the socket, `transport_check_fds` at level 0
reduces to the pure dispatch decision over the buffered bytes. -/
theorem check_fds_empty_sock (cb : List ℕ → Bool) (buf : List ℕ) :
    transport_check_fds cb ⟨[], buf, 0⟩ =
      (if 0 < buf.length then
        if tpkt_verify_header buf then
          if buf.length ≤ 4 then (0, ⟨[], buf, 0⟩, none)
          else transport_check_dispatch cb [] buf 0 (tpkt_read_header buf) buf.length
        else if buf.length ≤ 2 then (0, ⟨[], buf, 0⟩, none)
        else if buf.length < fastpath_header_length buf then (0, ⟨[], buf, 0⟩, none)
        else transport_check_dispatch cb [] buf 0 (fastpath_read_header buf) buf.length
      else (0, ⟨[], buf, 0⟩, none)) := by
  simp only [transport_check_fds, transport_read_nonblocking, transport_read_nb_empty]
  rw [if_neg (show ¬((0 : ℕ) ≠ 0) from by omega)]
  rw [if_neg (show ¬((0 : ℤ) < 0) from by omega)]

/-- C3 (counterexample): two complete, fully buffered PDUs that
`transport_check_fds` does not dispatch — a header-only TPKT of declared total
length 4 with exactly 4 bytes buffered (the code waits while `pos <= 4`, not
only when fewer than 4 bytes are present), and a 2-byte Fast-Path PDU with
exactly 2 bytes buffered (the code waits while `pos <= 2`). -/
theorem c3_counterexample :
    transport_check_fds (fun _ => true) ⟨[], [0x03, 0x00, 0x00, 0x04], 0⟩ =
      (0, ⟨[], [0x03, 0x00, 0x00, 0x04], 0⟩, none) ∧
    transport_check_fds (fun _ => true) ⟨[], [0x10, 0x02], 0⟩ =
      (0, ⟨[], [0x10, 0x02], 0⟩, none) := by
  constructor <;> rfl

/-- C3 (amended): with the buffered contents in place and no new socket bytes,
`transport_check_fds` returns 0 without dispatching when the contents verify
as TPKT and AT MOST 4 bytes are present (not only "fewer than 4"), when
decoding as Fast-Path and AT MOST 2 bytes (or fewer than the recognized 2- or
3-byte header length) are present, or when fewer bytes than the declared
length are buffered; conversely a complete PDU is dispatched with exactly its
declared length provided the buffered count also exceeds the wait threshold
(at least 5 bytes for TPKT, at least 3 for Fast-Path) and the declared length
is nonzero. -/
theorem c3_wait_dispatch (cb : List ℕ → Bool) (buf : List ℕ) :
    (tpkt_verify_header buf = true → buf.length ≤ 4 →
      transport_check_fds cb ⟨[], buf, 0⟩ = (0, ⟨[], buf, 0⟩, none)) ∧
    (tpkt_verify_header buf = false → buf.length ≤ 2 →
      transport_check_fds cb ⟨[], buf, 0⟩ = (0, ⟨[], buf, 0⟩, none)) ∧
    (tpkt_verify_header buf = false → buf.length < fastpath_header_length buf →
      transport_check_fds cb ⟨[], buf, 0⟩ = (0, ⟨[], buf, 0⟩, none)) ∧
    (tpkt_verify_header buf = true → 4 < buf.length → buf.length < tpkt_read_header buf →
      transport_check_fds cb ⟨[], buf, 0⟩ = (0, ⟨[], buf, 0⟩, none)) ∧
    (tpkt_verify_header buf = false → 2 < buf.length →
      buf.length < fastpath_read_header buf →
      transport_check_fds cb ⟨[], buf, 0⟩ = (0, ⟨[], buf, 0⟩, none)) ∧
    (tpkt_verify_header buf = true → 4 < buf.length → tpkt_read_header buf ≠ 0 →
      tpkt_read_header buf ≤ buf.length → cb (buf.take (tpkt_read_header buf)) = true →
      transport_check_fds cb ⟨[], buf, 0⟩ =
        (0, ⟨[], [], 0⟩, some (buf.take (tpkt_read_header buf)))) ∧
    (tpkt_verify_header buf = false → 2 < buf.length → fastpath_read_header buf ≠ 0 →
      fastpath_read_header buf ≤ buf.length →
      cb (buf.take (fastpath_read_header buf)) = true →
      transport_check_fds cb ⟨[], buf, 0⟩ =
        (0, ⟨[], [], 0⟩, some (buf.take (fastpath_read_header buf)))) := by
  have hfhl : fastpath_header_length buf ≤ 3 := by
    unfold fastpath_header_length
    split <;> omega
  refine ⟨fun hv h4 => ?_, fun hv h2 => ?_, fun hv hh => ?_, fun hv h4 hlt => ?_,
    fun hv h2 hlt => ?_, fun hv h4 hne hle hcb => ?_, fun hv h2 hne hle hcb => ?_⟩
  · rw [check_fds_empty_sock]
    by_cases hpos : 0 < buf.length
    · rw [if_pos hpos, if_pos hv, if_pos h4]
    · rw [if_neg hpos]
  · rw [check_fds_empty_sock]
    by_cases hpos : 0 < buf.length
    · rw [if_pos hpos, if_neg (by simp [hv]), if_pos h2]
    · rw [if_neg hpos]
  · rw [check_fds_empty_sock]
    by_cases hpos : 0 < buf.length
    · by_cases h2 : buf.length ≤ 2
      · rw [if_pos hpos, if_neg (by simp [hv]), if_pos h2]
      · rw [if_pos hpos, if_neg (by simp [hv]), if_neg h2, if_pos hh]
    · rw [if_neg hpos]
  · rw [check_fds_empty_sock, if_pos (by omega), if_pos hv, if_neg (by omega)]
    unfold transport_check_dispatch
    rw [if_neg (by omega), if_pos hlt]
  · rw [check_fds_empty_sock, if_pos (by omega), if_neg (by simp [hv]),
      if_neg (by omega), if_neg (by omega)]
    unfold transport_check_dispatch
    rw [if_neg (by omega), if_pos hlt]
  · rw [check_fds_empty_sock, if_pos (by omega), if_pos hv, if_neg (by omega)]
    unfold transport_check_dispatch
    rw [if_neg hne, if_neg (by omega), if_pos hcb]
  · rw [check_fds_empty_sock, if_pos (by omega), if_neg (by simp [hv]),
      if_neg (by omega), if_neg (by omega)]
    unfold transport_check_dispatch
    rw [if_neg hne, if_neg (by omega), if_pos hcb]

/-- C3 (witness): a 5-byte TPKT of declared length 5 fully buffered is
dispatched whole, and a 2-byte Fast-Path PDU with a third byte buffered is
dispatched with exactly its declared 2 bytes. -/
theorem c3_witness :
    transport_check_fds (fun _ => true) ⟨[], [0x03, 0x00, 0x00, 0x05, 0x09], 0⟩ =
      (0, ⟨[], [], 0⟩, some [0x03, 0x00, 0x00, 0x05, 0x09]) ∧
    transport_check_fds (fun _ => true) ⟨[], [0x10, 0x02, 0x30], 0⟩ =
      (0, ⟨[], [], 0⟩, some [0x10, 0x02]) := by
  constructor
  · have h := (c3_wait_dispatch (fun _ => true) [0x03, 0x00, 0x00, 0x05, 0x09]).2.2.2.2.2.1
      (by decide) (by decide) (by decide) (by decide) rfl
    simpa using h
  · have h := (c3_wait_dispatch (fun _ => true) [0x10, 0x02, 0x30]).2.2.2.2.2.2
      (by decide) (by decide) (by decide) (by decide) rfl
    simpa using h

/-- C10 (witness): the unrecognized TSRequest encoding `30 83 01 02` (three
announced length octets) gives declared length 0 with 4 bytes buffered; the
read returns 0 — not a negative error — and the socket is untouched. -/
theorem c10_witness :
    transport_read_nb [9, 9] [0x30, 0x83, 1, 2] = (0, [0x30, 0x83, 1, 2], [9, 9]) := by
  have h := (c10_short_pdu_no_error [9, 9] [0x30, 0x83, 1, 2]).1 (by decide) (by decide)
  simpa using h
